import Mathlib

/-!
Shallow embedding of the Product CRUD microservice
(`example-1/backend/product_service/app`): the entity model (`models.py`),
the validation schemas (`schemas.py`), and the five request handlers plus the
startup retry loop (`main.py`).

Modelling conventions:
* The relational store is a list of rows plus the auto-increment counter.
* Timestamps are abstract clock values (`Nat`); the handler takes the current
  clock as an explicit argument `now`.
* Row columns that are nullable in the ORM object are `Option`-typed; the
  NOT NULL column constraints of `models.py` are checked at commit time
  (`rowNotNullOk`), mirroring where the database enforces them.
* `price` (`float` in the schema, `Numeric(10,2)` in the table, never used in
  arithmetic by the service) is modelled as `ℚ`.
* Each endpoint returns the post-request store together with the HTTP-level
  outcome, so rollback (store unchanged) is an explicit equation.
-/

namespace ProductService

/-- A row of the `products_week03_example_01` table / the in-memory ORM
object of `models.py`.  Any attribute of the Python object may transiently
hold `None`, hence every column is `Option`-typed; `rowNotNullOk` captures
the NOT NULL constraints enforced at commit. -/
structure Product where
  product_id : Nat
  name : Option String
  description : Option String
  price : Option ℚ
  stock_quantity : Option Int
  created_at : Option Nat
  updated_at : Option Nat
deriving DecidableEq, Repr

/-- NOT NULL constraints of `models.py`: `name`, `price`, `stock_quantity`
are `nullable=False`; `description`, timestamps are nullable. -/
def rowNotNullOk (r : Product) : Bool :=
  r.name.isSome && r.price.isSome && r.stock_quantity.isSome

/-- The relational store: the rows in store order plus the auto-increment
counter for `product_id`. -/
structure Store where
  products : List Product
  nextId : Nat
deriving DecidableEq, Repr

/-- Store sanity: every persisted row has an id below the auto-increment
counter (so freshly assigned ids are new) and satisfies the NOT NULL
column constraints. -/
def Store.wf (st : Store) : Prop :=
  ∀ r ∈ st.products, r.product_id < st.nextId ∧ rowNotNullOk r = true

/-- `ProductCreate` of `schemas.py`: the already type-checked payload of
`POST /products/` (field range validation is `validateCreate`). -/
structure ProductCreate where
  name : String
  description : Option String
  price : ℚ
  stock_quantity : Int
deriving DecidableEq, Repr

/-- `name` field rule: `min_length=1, max_length=255`. -/
def validName (s : String) : Bool := 1 ≤ s.length && s.length ≤ 255

/-- `description` field rule: optional, `max_length=2000`. -/
def validDescription : Option String → Bool
  | none => true
  | some s => s.length ≤ 2000

/-- `price` field rule: `gt=0`. -/
def validPrice (q : ℚ) : Bool := 0 < q

/-- `stock_quantity` field rule: `ge=0`. -/
def validStock (n : Int) : Bool := 0 ≤ n

/-- Pydantic validation of a `ProductCreate` payload: all four field rules. -/
def validateCreate (p : ProductCreate) : Bool :=
  validName p.name && validDescription p.description &&
    validPrice p.price && validStock p.stock_quantity

/-- `ProductUpdate` of `schemas.py`: every field optional.  The outer
`Option` is "was the field provided at all" (pydantic `exclude_unset`),
the inner `Option` is the provided value, which may itself be an explicit
`null`. -/
structure ProductUpdate where
  name : Option (Option String)
  description : Option (Option String)
  price : Option (Option ℚ)
  stock_quantity : Option (Option Int)
deriving DecidableEq, Repr

/-- Pydantic validation of a `ProductUpdate` payload: a field that is absent
or explicitly `null` passes; a provided non-null value must satisfy the
field's range rule (the constraints sit on the `str`/`float`/`int` branch of
an `Optional` type, so `None` bypasses them). -/
def validateUpdate (u : ProductUpdate) : Bool :=
  (match u.name with | some (some s) => validName s | _ => true) &&
  (match u.description with | some (some s) => s.length ≤ 2000 | _ => true) &&
  (match u.price with | some (some q) => validPrice q | _ => true) &&
  (match u.stock_quantity with | some (some n) => validStock n | _ => true)

/-- The HTTP failure outcomes the handlers produce. -/
inductive ApiError where
  /-- FastAPI/pydantic request validation failure (422). -/
  | validation : ApiError
  /-- `HTTPException(404, detail)`. -/
  | notFound (detail : String) : ApiError
  /-- `HTTPException(500, detail)` after rollback. -/
  | serverError (detail : String) : ApiError
deriving DecidableEq, Repr

/-- HTTP status code of each failure outcome. -/
def ApiError.status : ApiError → Nat
  | .validation => 422
  | .notFound _ => 404
  | .serverError _ => 500

/-- `db.query(Product).filter(Product.product_id == id).first()`. -/
def getProduct (st : Store) (id : Nat) : Option Product :=
  st.products.find? (fun r => r.product_id == id)

/-- Handler `create_product`: pydantic validation gate, then
`Product(**payload)` is inserted; the store assigns `product_id` from the
auto-increment counter and `created_at` from `func.now()`; `updated_at`
starts NULL.  A validated payload satisfies every NOT NULL constraint, so
the commit succeeds. -/
def create_product (st : Store) (p : ProductCreate) (now : Nat) :
    Store × Except ApiError Product :=
  if validateCreate p then
    let row : Product :=
      { product_id := st.nextId
        name := some p.name
        description := p.description
        price := some p.price
        stock_quantity := some p.stock_quantity
        created_at := some now
        updated_at := none }
    ({ products := st.products ++ [row], nextId := st.nextId + 1 }, .ok row)
  else
    (st, .error .validation)

/-- Lower-casing used by `ilike` (ASCII case folding), character by
character. -/
def lowerChars (s : String) : List Char := s.toList.map Char.toLower

/-- Does `pat` occur at the head of `l`? -/
def headMatch : List Char → List Char → Bool
  | [], _ => true
  | _ :: _, [] => false
  | c :: cs, d :: ds => c == d && headMatch cs ds

/-- Does `pat` occur anywhere in `l`?  (Substring, not just head.) -/
def occursIn (pat : List Char) : List Char → Bool
  | [] => headMatch pat []
  | d :: ds => headMatch pat (d :: ds) || occursIn pat ds

/-- Case-insensitive substring containment: the spec's reading of the
search ("contains the term, case-insensitively").  Kept separate from the
code's `ILIKE` matcher (`likeMatch`) because the two differ on terms that
contain SQL LIKE metacharacters. -/
def containsCI (s term : String) : Bool :=
  occursIn (lowerChars term) (lowerChars s)

/-- One lexed element of a SQL LIKE pattern: `_`, `%`, or a literal
character. -/
inductive LikeTok where
  | anyOne : LikeTok
  | anyMany : LikeTok
  | lit (c : Char) : LikeTok
deriving DecidableEq, Repr

/-- Lex a LIKE pattern: the escape character `\` makes the next character
literal (PostgreSQL's default escape); `%` and `_` are wildcards; anything
else is literal.  A dangling trailing escape is an error in PostgreSQL and
cannot arise from the handler's `'%' ... '%'` pattern; it is modelled as
ending the pattern. -/
def lexLike : List Char → List LikeTok
  | [] => []
  | c :: rest =>
    if c = '\\' then
      match rest with
      | [] => []
      | d :: rest2 => LikeTok.lit d :: lexLike rest2
    else if c = '%' then LikeTok.anyMany :: lexLike rest
    else if c = '_' then LikeTok.anyOne :: lexLike rest
    else LikeTok.lit c :: lexLike rest

/-- Match a lexed LIKE pattern against a character list: `%` matches any
(possibly empty) sequence, `_` exactly one character, and a literal matches
case-insensitively (ASCII fold, as `ILIKE` does for ASCII). -/
def toksMatch : List LikeTok → List Char → Bool
  | [], l => l.isEmpty
  | LikeTok.anyMany :: ps, [] => toksMatch ps []
  | LikeTok.anyMany :: ps, c :: ls =>
      toksMatch ps (c :: ls) || toksMatch (LikeTok.anyMany :: ps) ls
  | LikeTok.anyOne :: _, [] => false
  | LikeTok.anyOne :: ps, _ :: ls => toksMatch ps ls
  | LikeTok.lit _ :: _, [] => false
  | LikeTok.lit q :: ps, c :: ls =>
      (q.toLower == c.toLower) && toksMatch ps ls
termination_by p l => (p.length, l.length)

/-- `text ILIKE pattern`. -/
def likeMatch (pat text : List Char) : Bool := toksMatch (lexLike pat) text

/-- The pattern `f"%{search}%"` built by `list_products` — the search term
is interpolated unescaped, so `%`, `_` and `\` inside it keep their LIKE
meaning. -/
def ilikePattern (term : String) : List Char := '%' :: term.toList ++ ['%']

/-- No character of the list is a SQL LIKE metacharacter (`%`, `_`, `\`). -/
def noSpecial (cs : List Char) : Bool :=
  cs.all (fun c => !(c == '%' || c == '_' || c == '\\'))

/-- The search filter of `list_products`:
`name ILIKE f"%{search}%" OR description ILIKE f"%{search}%"`.  A NULL
column makes its `ILIKE` comparison NULL (falsy), so a NULL description
only matches via the name. -/
def matchesSearch (term : String) (r : Product) : Bool :=
  (match r.name with
   | some n => likeMatch (ilikePattern term) n.toList
   | none => false) ||
  (match r.description with
   | some d => likeMatch (ilikePattern term) d.toList
   | none => false)

/-- The spec's search predicate, stated from the spec's words for
comparison with the code's filter: the name or the description contains
the term as a case-insensitive substring. -/
def specContainsTerm (term : String) (r : Product) : Bool :=
  (match r.name with | some n => containsCI n term | none => false) ||
  (match r.description with | some d => containsCI d term | none => false)

/-- Handler `list_products`: FastAPI `Query` validation
(`skip ≥ 0`, `1 ≤ limit ≤ 100`, `len(search) ≤ 255`) rejects with 422 before
the handler runs; the handler applies the search filter only when `search`
is truthy (`if search:` — `None` and the empty string both skip it), then
`offset(skip).limit(limit)`. -/
def list_products (st : Store) (skip limit : Int) (search : Option String) :
    Except ApiError (List Product) :=
  if skip < 0 || limit < 1 || 100 < limit ||
      (match search with | some s => decide (255 < s.length) | none => false) then
    .error .validation
  else
    let base :=
      match search with
      | some s => if s = "" then st.products else st.products.filter (matchesSearch s)
      | none => st.products
    .ok ((base.drop skip.toNat).take limit.toNat)

/-- Handler `get_product`: fetch by id, 404 `"Product not found"` if absent. -/
def get_product (st : Store) (id : Nat) : Except ApiError Product :=
  match getProduct st id with
  | none => .error (.notFound "Product not found")
  | some r => .ok r

/-- `for field, value in updated.dict(exclude_unset=True).items():
setattr(product, field, value)` — copy exactly the provided fields (an
explicitly provided `null` is provided) onto the fetched row. -/
def applyUpdate (r : Product) (u : ProductUpdate) : Product :=
  { r with
    name := u.name.getD r.name
    description := u.description.getD r.description
    price := u.price.getD r.price
    stock_quantity := u.stock_quantity.getD r.stock_quantity }

/-- `UPDATE ... WHERE product_id = id`: replace the row with that key. -/
def replaceById (st : Store) (id : Nat) (row : Product) : Store :=
  { st with products := st.products.map (fun r => if r.product_id = id then row else r) }

/-- Handler `update_product`: pydantic validation gate; fetch by id, 404 if
absent; copy the provided fields onto the row; commit.  The ORM flush emits
an UPDATE only when some column has a net change (setting a field to its
current value, or providing no field, leaves nothing dirty), and only an
emitted UPDATE fires `onupdate=func.now()` for `updated_at`; a NOT NULL
violation at commit rolls back and reports 500
`"Could not update product."`. -/
def update_product (st : Store) (id : Nat) (u : ProductUpdate) (now : Nat) :
    Store × Except ApiError Product :=
  if validateUpdate u then
    match getProduct st id with
    | none => (st, .error (.notFound "Product not found"))
    | some r =>
      let merged := applyUpdate r u
      if merged = r then
        (st, .ok r)
      else if rowNotNullOk merged then
        let final := { merged with updated_at := some now }
        (replaceById st id final, .ok final)
      else
        (st, .error (.serverError "Could not update product."))
  else
    (st, .error .validation)

/-- Handler `delete_product`: fetch by id, 404 `"Product not found"` if
absent; otherwise `DELETE ... WHERE product_id = id` and return 204 with no
body. -/
def delete_product (st : Store) (id : Nat) : Store × Except ApiError Unit :=
  match getProduct st id with
  | none => (st, .error (.notFound "Product not found"))
  | some _ =>
    ({ st with products := st.products.filter (fun r => r.product_id ≠ id) }, .ok ())

/-- Success status codes of the endpoints (`status_code=` decorators):
create 201, list/get/update 200, delete 204. -/
def successStatus_create : Nat := 201

/-- Success status of `DELETE /products/{id}`. -/
def successStatus_delete : Nat := 204

/-- What one startup attempt (`Base.metadata.create_all`) can do. -/
inductive Outcome where
  | success : Outcome
  /-- `sqlalchemy.exc.OperationalError` — connectivity failure. -/
  | connFailure : Outcome
  /-- any other exception. -/
  | otherError : Outcome
deriving DecidableEq, Repr

/-- How the startup phase ends: serving traffic after some number of
attempts and some total seconds slept, or `sys.exit(code)`. -/
inductive StartupResult where
  | ready (attempts slept : Nat) : StartupResult
  | exited (code : Nat) : StartupResult
deriving DecidableEq, Repr

/-- `max_retries = 10` in `startup_event`. -/
def max_retries : Nat := 10

/-- `retry_delay_seconds = 5` in `startup_event`. -/
def retry_delay_seconds : Nat := 5

/-- The `for i in range(max_retries)` loop of `startup_event`: success
breaks out; `OperationalError` sleeps `retry_delay_seconds` and retries
unless this was the last attempt, in which case `sys.exit(1)`; any other
exception is `sys.exit(1)` immediately.  `i` is the index of the current
attempt, `remaining` the number of attempts left. -/
def startupGo (env : Nat → Outcome) : Nat → Nat → Nat → StartupResult
  | _, _, 0 => .exited 1
  | i, slept, remaining + 1 =>
    match env i with
    | .success => .ready (i + 1) slept
    | .otherError => .exited 1
    | .connFailure =>
      if remaining = 0 then .exited 1
      else startupGo env (i + 1) (slept + retry_delay_seconds) remaining

/-- `startup_event`: run the bounded retry loop from attempt 0. -/
def startup_event (env : Nat → Outcome) : StartupResult :=
  startupGo env 0 0 max_retries

/-- Sample row, as created by the scenario of the spec (id 1, created at
clock 7, never updated). -/
def demoRow : Product :=
  { product_id := 1, name := some "Apple Laptop",
    description := some "A fine laptop", price := some 1000,
    stock_quantity := some 10, created_at := some 7, updated_at := none }

/-- Sample store holding exactly `demoRow`. -/
def demoStore : Store := { products := [demoRow], nextId := 2 }

/-- Update payload renaming the product, all other fields omitted. -/
def nameU : ProductUpdate :=
  { name := some (some "Apple Laptop Pro"), description := none,
    price := none, stock_quantity := none }

/-- `demoRow` after applying `nameU` at clock 9. -/
def updRow : Product :=
  { demoRow with name := some "Apple Laptop Pro", updated_at := some 9 }

/-- Update payload that explicitly sets `name` to `null` (provided, value
null), all other fields omitted. -/
def nullNameU : ProductUpdate :=
  { name := some none, description := none, price := none,
    stock_quantity := none }

/-- Update payload that explicitly sets `price` to `null`, all other fields
omitted. -/
def nullPriceU : ProductUpdate :=
  { name := none, description := none, price := some none,
    stock_quantity := none }

/-- Update payload providing no field at all. -/
def emptyU : ProductUpdate :=
  { name := none, description := none, price := none, stock_quantity := none }

/-- A row with the given id and name, used to build sample stores. -/
def plainRow (id : Nat) (nm : String) : Product :=
  { product_id := id, name := some nm, description := none, price := some 5,
    stock_quantity := some 1, created_at := some 0, updated_at := none }

/-- Sample store with five rows (ids 1–5). -/
def fiveStore : Store :=
  { products := [plainRow 1 "P1", plainRow 2 "P2", plainRow 3 "P3",
                 plainRow 4 "P4", plainRow 5 "P5"], nextId := 6 }

/-- Row named "abc", to exhibit LIKE wildcard behaviour of the search. -/
def abcRow : Product :=
  { product_id := 1, name := some "abc", description := none,
    price := some 5, stock_quantity := some 1, created_at := some 0,
    updated_at := none }

/-- Store holding exactly `abcRow`. -/
def abcStore : Store := { products := [abcRow], nextId := 2 }

/-! ## Helper lemmas -/

/-- The empty pattern occurs in every character list. -/
lemma occursIn_nil (l : List Char) : occursIn [] l = true := by
  induction l with
  | nil => rfl
  | cons d ds ih => simp [occursIn, headMatch]

/-- Every string contains the empty string case-insensitively. -/
lemma containsCI_empty (s : String) : containsCI s "" = true := by
  have h : lowerChars "" = [] := by decide
  unfold containsCI
  rw [h]
  exact occursIn_nil _

/-- Splitting a `noSpecial` character list. -/
lemma noSpecial_cons {c : Char} {cs : List Char}
    (h : noSpecial (c :: cs) = true) :
    c ≠ '\\' ∧ c ≠ '%' ∧ c ≠ '_' ∧ noSpecial cs = true := by
  simp only [noSpecial, List.all_cons, Bool.and_eq_true, Bool.not_eq_true',
    Bool.or_eq_false_iff, beq_eq_false_iff_ne, ne_eq] at h
  exact ⟨h.1.2, h.1.1.1, h.1.1.2, h.2⟩

/-- A non-metacharacter lexes to a literal token. -/
lemma lexLike_cons_plain (c : Char) (cs : List Char)
    (h1 : c ≠ '\\') (h2 : c ≠ '%') (h3 : c ≠ '_') :
    lexLike (c :: cs) = LikeTok.lit c :: lexLike cs := by
  rw [lexLike.eq_def]
  dsimp only
  rw [if_neg h1, if_neg h2, if_neg h3]

/-- `%` lexes to the any-sequence wildcard. -/
lemma lexLike_cons_anyMany (cs : List Char) :
    lexLike ('%' :: cs) = LikeTok.anyMany :: lexLike cs := by
  rw [lexLike.eq_def]
  dsimp only
  rw [if_neg (by decide : ¬('%' = '\\')), if_pos rfl]

/-- A metacharacter-free chunk followed by the closing `%` lexes to
literal tokens plus the wildcard. -/
lemma lexLike_append_noSpecial :
    ∀ cs : List Char, noSpecial cs = true →
      lexLike (cs ++ ['%']) = cs.map LikeTok.lit ++ [LikeTok.anyMany] := by
  intro cs
  induction cs with
  | nil =>
    intro h
    rw [List.nil_append, lexLike_cons_anyMany]
    rfl
  | cons c cs ih =>
    intro h
    obtain ⟨h1, h2, h3, h4⟩ := noSpecial_cons h
    rw [List.cons_append, lexLike_cons_plain c _ h1 h2 h3, ih h4]
    rfl

/-- A lone `%` pattern matches every text. -/
lemma toksMatch_single_anyMany : ∀ l, toksMatch [LikeTok.anyMany] l = true := by
  intro l
  induction l with
  | nil => simp [toksMatch]
  | cons d ds ih => simp [toksMatch, ih]

/-- A literal chunk followed by `%` matches exactly the texts starting
with the chunk (case-folded). -/
lemma toksMatch_lits_anyMany :
    ∀ (cs l : List Char),
      toksMatch (cs.map LikeTok.lit ++ [LikeTok.anyMany]) l =
        headMatch (cs.map Char.toLower) (l.map Char.toLower) := by
  intro cs
  induction cs with
  | nil => intro l; simp [toksMatch_single_anyMany, headMatch]
  | cons c cs ih =>
    intro l
    cases l with
    | nil => simp [toksMatch, headMatch]
    | cons d ds => simp [toksMatch, headMatch, ih]

/-- `%chunk%` matches exactly the texts containing the chunk
(case-folded substring). -/
lemma toksMatch_anyMany_lits :
    ∀ (cs l : List Char),
      toksMatch (LikeTok.anyMany :: (cs.map LikeTok.lit ++ [LikeTok.anyMany])) l =
        occursIn (cs.map Char.toLower) (l.map Char.toLower) := by
  intro cs l
  induction l with
  | nil => simp [toksMatch, occursIn, toksMatch_lits_anyMany]
  | cons d ds ih => simp [toksMatch, occursIn, toksMatch_lits_anyMany, ih]

/-- For terms free of LIKE metacharacters, the code's `ILIKE '%term%'`
coincides with the spec's case-insensitive substring containment. -/
lemma ilike_eq_contains (term : String) (h : noSpecial term.toList = true)
    (l : List Char) :
    likeMatch (ilikePattern term) l =
      occursIn (lowerChars term) (l.map Char.toLower) := by
  unfold likeMatch ilikePattern lowerChars
  rw [List.cons_append, lexLike_cons_anyMany,
    lexLike_append_noSpecial term.toList h, toksMatch_anyMany_lits]

/-- For metacharacter-free terms, the code's search filter agrees with the
spec's substring predicate on every row. -/
lemma matchesSearch_eq_spec (term : String)
    (h : noSpecial term.toList = true) (r : Product) :
    matchesSearch term r = specContainsTerm term r := by
  obtain ⟨id, nm, ds, pr, sq, ca, ua⟩ := r
  cases nm <;> cases ds <;>
    simp [matchesSearch, specContainsTerm, containsCI, lowerChars,
      ilike_eq_contains term h]

/-- Characterization of a successful `create_product` run. -/
lemma create_product_ok {st st' : Store} {P : ProductCreate} {now : Nat}
    {p : Product} (h : create_product st P now = (st', Except.ok p)) :
    validateCreate P = true ∧
    p = { product_id := st.nextId, name := some P.name,
          description := P.description, price := some P.price,
          stock_quantity := some P.stock_quantity,
          created_at := some now, updated_at := none } ∧
    st' = { products := st.products ++ [p], nextId := st.nextId + 1 } := by
  by_cases hv : validateCreate P = true
  · unfold create_product at h
    rw [if_pos hv] at h
    simp only [Prod.mk.injEq, Except.ok.injEq] at h
    obtain ⟨hst, hp⟩ := h
    subst hp
    exact ⟨hv, rfl, hst.symm⟩
  · unfold create_product at h
    rw [if_neg hv] at h
    simp at h

/-- Characterization of a successful `update_product` run: the payload was
valid, a row with the id existed, and either nothing had a net change (no
UPDATE emitted, row returned as fetched) or the merged row was written with
`updated_at` refreshed. -/
lemma update_product_ok {st st' : Store} {id : Nat} {u : ProductUpdate}
    {now : Nat} {p : Product}
    (h : update_product st id u now = (st', Except.ok p)) :
    validateUpdate u = true ∧
    ∃ r, getProduct st id = some r ∧
      ((applyUpdate r u = r ∧ p = r ∧ st' = st) ∨
       (applyUpdate r u ≠ r ∧ rowNotNullOk (applyUpdate r u) = true ∧
        p = { applyUpdate r u with updated_at := some now } ∧
        st' = replaceById st id p)) := by
  by_cases hv : validateUpdate u = true
  · unfold update_product at h
    rw [if_pos hv] at h
    cases hg : getProduct st id with
    | none => rw [hg] at h; simp at h
    | some r =>
      rw [hg] at h
      dsimp only at h
      by_cases hm : applyUpdate r u = r
      · rw [if_pos hm] at h
        simp only [Prod.mk.injEq, Except.ok.injEq] at h
        exact ⟨hv, r, rfl, Or.inl ⟨hm, h.2.symm, h.1.symm⟩⟩
      · rw [if_neg hm] at h
        by_cases hn : rowNotNullOk (applyUpdate r u) = true
        · rw [if_pos hn] at h
          simp only [Prod.mk.injEq, Except.ok.injEq] at h
          obtain ⟨hst, hp⟩ := h
          subst hp
          exact ⟨hv, r, rfl, Or.inr ⟨hm, hn, rfl, hst.symm⟩⟩
        · rw [if_neg hn] at h
          simp at h
  · unfold update_product at h
    rw [if_neg hv] at h
    simp at h

/-- With parameters the `Query` validation accepts, `list_products` returns
the (possibly filtered) rows after `skip` and `limit`. -/
lemma list_products_valid (st : Store) (skip limit : Int)
    (search : Option String) (hskip : 0 ≤ skip) (hlim1 : 1 ≤ limit)
    (hlim2 : limit ≤ 100) (hlen : ∀ s, search = some s → s.length ≤ 255) :
    list_products st skip limit search =
      Except.ok ((((match search with
        | some s => if s = "" then st.products
                    else st.products.filter (matchesSearch s)
        | none => st.products)).drop skip.toNat).take limit.toNat) := by
  unfold list_products
  rw [if_neg]
  · simp only [Bool.or_eq_true, decide_eq_true_eq, not_or]
    refine ⟨⟨⟨by omega, by omega⟩, by omega⟩, ?_⟩
    cases search with
    | none => simp
    | some s =>
      have := hlen s rfl
      simp only [Bool.not_eq_true, decide_eq_false_iff_not]
      omega

/-! ## Claims -/

/-- C5: Create validation boundary — a Create payload with `price = 0`,
with `stock_quantity = -1`, or with an empty `name` fails schema
validation; the payload (name "Widget", price 0.01, stock_quantity 0)
passes, so price 0.01 and stock 0 are accepted; and any payload failing
validation is answered with the 422 validation error while the store is
left unchanged — no record is persisted. -/
theorem claim_C5 :
    (∀ P : ProductCreate, P.price = 0 → validateCreate P = false) ∧
    (∀ P : ProductCreate, P.stock_quantity = -1 → validateCreate P = false) ∧
    (∀ P : ProductCreate, P.name = "" → validateCreate P = false) ∧
    validateCreate { name := "Widget", description := none,
                     price := 1/100, stock_quantity := 0 } = true ∧
    (∀ (st : Store) (P : ProductCreate) (now : Nat), validateCreate P = false →
      create_product st P now = (st, Except.error ApiError.validation)) := by
  refine ⟨?_, ?_, ?_, ?_, ?_⟩
  · intro P hP
    have h0 : validPrice 0 = false := by decide
    simp [validateCreate, hP, h0]
  · intro P hP
    have h0 : validStock (-1) = false := by decide
    simp [validateCreate, hP, h0]
  · intro P hP
    have h0 : validName "" = false := by decide
    simp [validateCreate, hP, h0]
  · unfold validateCreate
    rw [show validName "Widget" = true from by decide]
    rw [show validPrice (1/100) = true from by
      simp only [validPrice, decide_eq_true_eq]; norm_num]
    rw [show validStock 0 = true from by decide]
    rfl
  · intro st P now hP
    simp [create_product, hP]

/-- Closed instance of C5 at the payload (name "Widget", price 0,
stock 5). -/
theorem claim_C5_witness :
    validateCreate { name := "Widget", description := none,
                     price := 0, stock_quantity := 5 } = false ∧
    create_product { products := [], nextId := 1 }
        { name := "Widget", description := none, price := 0, stock_quantity := 5 } 0 =
      ({ products := [], nextId := 1 }, Except.error ApiError.validation) :=
  ⟨claim_C5.1 _ rfl, claim_C5.2.2.2.2 _ _ _ (claim_C5.1 _ rfl)⟩

/-- C10: Not-found atomicity — for a payload that passes validation and an
id with no row in the store, both `update_product` and `delete_product`
answer 404 "Product not found" and return the store unchanged: the miss is
detected before any write. -/
theorem claim_C10 (st : Store) (id : Nat) (u : ProductUpdate) (now : Nat)
    (hu : validateUpdate u = true) (habs : getProduct st id = none) :
    update_product st id u now =
      (st, Except.error (ApiError.notFound "Product not found")) ∧
    delete_product st id =
      (st, Except.error (ApiError.notFound "Product not found")) := by
  constructor
  · unfold update_product
    rw [if_pos hu, habs]
  · unfold delete_product
    rw [habs]

/-- Closed instance of C10: id 1 against the empty store. -/
theorem claim_C10_witness :
    update_product { products := [], nextId := 1 } 1
        { name := none, description := none, price := none, stock_quantity := none } 5 =
      ({ products := [], nextId := 1 },
        Except.error (ApiError.notFound "Product not found")) ∧
    delete_product { products := [], nextId := 1 } 1 =
      ({ products := [], nextId := 1 },
        Except.error (ApiError.notFound "Product not found")) :=
  claim_C10 { products := [], nextId := 1 } 1
    { name := none, description := none, price := none, stock_quantity := none } 5
    rfl rfl

/-- C4: Delete finality — after `delete_product` succeeds (204),
`get_product` on the same id answers 404 "Product not found", a second
`delete_product` answers 404 with the store unchanged, and no row with
that id remains anywhere in the store (hard delete, no tombstone). -/
theorem claim_C4 (st st' : Store) (id : Nat)
    (h : delete_product st id = (st', Except.ok ())) :
    get_product st' id = Except.error (ApiError.notFound "Product not found") ∧
    delete_product st' id =
      (st', Except.error (ApiError.notFound "Product not found")) ∧
    ∀ r ∈ st'.products, r.product_id ≠ id := by
  cases hg : getProduct st id with
  | none =>
    unfold delete_product at h
    rw [hg] at h
    simp at h
  | some r0 =>
    unfold delete_product at h
    rw [hg] at h
    dsimp only at h
    simp only [Prod.mk.injEq] at h
    obtain ⟨hst, -⟩ := h
    subst hst
    have hmem : ∀ r ∈ st.products.filter (fun r => r.product_id ≠ id),
        r.product_id ≠ id := by
      intro r hr
      have hr2 := (List.mem_filter.mp hr).2
      simpa using hr2
    have hnone :
        getProduct { st with products := st.products.filter (fun r => r.product_id ≠ id) } id
          = none := by
      unfold getProduct
      apply List.find?_eq_none.mpr
      intro x hx
      simpa using hmem x hx
    refine ⟨?_, ?_, hmem⟩
    · unfold get_product
      rw [hnone]
    · unfold delete_product
      rw [hnone]

/-- Closed instance of C4: deleting the only row (id 1) of a one-row
store. -/
theorem claim_C4_witness :
    get_product { products := [], nextId := 2 } 1 =
      Except.error (ApiError.notFound "Product not found") ∧
    delete_product { products := [], nextId := 2 } 1 =
      ({ products := [], nextId := 2 },
        Except.error (ApiError.notFound "Product not found")) ∧
    ∀ r ∈ ({ products := [], nextId := 2 } : Store).products, r.product_id ≠ 1 :=
  claim_C4
    { products := [{ product_id := 1, name := some "A", description := none,
                     price := some 10, stock_quantity := some 2,
                     created_at := some 0, updated_at := none }], nextId := 2 }
    { products := [], nextId := 2 } 1 rfl

/-- C7 fails as stated on the code: an update whose payload provides no
fields succeeds (200) yet does not set `updated_at` — with nothing dirty
the ORM emits no UPDATE, so `onupdate=func.now()` never fires.  Here the
empty payload against `demoStore` returns `demoRow` unchanged, with
`updated_at` still `none` rather than the request clock 99. -/
theorem claim_C7_counterexample :
    update_product demoStore 1 emptyU 99 = (demoStore, Except.ok demoRow) ∧
    demoRow.updated_at = none :=
  ⟨rfl, rfl⟩

/-- C7 (amended): `updated_at` is `none` from creation on, and
`created_at` is set at insertion; a successful update preserves
`created_at`; a successful update that gives some field a net new value
sets `updated_at` to the current clock; a successful update with no net
change (no fields provided, or only current values re-provided) returns
the record — `updated_at` included — unchanged. -/
theorem claim_C7_amended :
    (∀ (st st' : Store) (P : ProductCreate) (now : Nat) (p : Product),
      create_product st P now = (st', Except.ok p) →
      p.updated_at = none ∧ p.created_at = some now) ∧
    (∀ (st st' : Store) (id : Nat) (u : ProductUpdate) (now : Nat)
        (r p : Product),
      getProduct st id = some r →
      update_product st id u now = (st', Except.ok p) →
      p.created_at = r.created_at ∧
      (applyUpdate r u ≠ r → p.updated_at = some now) ∧
      (applyUpdate r u = r → p = r ∧ st' = st)) := by
  constructor
  · intro st st' P now p h
    obtain ⟨-, hp, -⟩ := create_product_ok h
    subst hp
    exact ⟨rfl, rfl⟩
  · intro st st' id u now r p hr h
    obtain ⟨-, r', hr', hcase⟩ := update_product_ok h
    rw [hr] at hr'
    injection hr' with hrr
    subst hrr
    rcases hcase with ⟨hm, hp, hst⟩ | ⟨hm, -, hp, -⟩
    · subst hp
      exact ⟨rfl, fun hc => absurd hm hc, fun _ => ⟨rfl, hst⟩⟩
    · subst hp
      exact ⟨rfl, fun _ => rfl, fun hc => absurd hc hm⟩

/-- Closed instance of the amended C7: creating "Apple Laptop" yields
`updated_at = none` and `created_at = some 7`; renaming it at clock 9
keeps `created_at` and sets `updated_at = some 9`. -/
theorem claim_C7_witness :
    (demoRow.updated_at = none ∧ demoRow.created_at = some 7) ∧
    (updRow.created_at = demoRow.created_at ∧
      (applyUpdate demoRow nameU ≠ demoRow → updRow.updated_at = some 9) ∧
      (applyUpdate demoRow nameU = demoRow →
        updRow = demoRow ∧ ({ products := [updRow], nextId := 2 } : Store) = demoStore)) :=
  ⟨claim_C7_amended.1 { products := [], nextId := 1 } demoStore
      { name := "Apple Laptop", description := some "A fine laptop",
        price := 1000, stock_quantity := 10 } 7 demoRow rfl,
   claim_C7_amended.2 demoStore { products := [updRow], nextId := 2 } 1
      nameU 9 demoRow updRow rfl rfl⟩

/-- C9: Explicit-null update fields pass validation and are applied — a
payload whose provided fields are all explicit nulls passes schema
validation (the range rules sit on the non-null branch only); the merge
step assigns the null to the column; and nulling a NOT NULL column (`name`
or `price`) on an existing row is not a 422: it surfaces as the 500
"Could not update product." persistence error, with the store rolled back
unchanged. -/
theorem claim_C9 :
    (∀ u : ProductUpdate,
      (u.name = none ∨ u.name = some none) →
      (u.description = none ∨ u.description = some none) →
      (u.price = none ∨ u.price = some none) →
      (u.stock_quantity = none ∨ u.stock_quantity = some none) →
      validateUpdate u = true) ∧
    (∀ r : Product, (applyUpdate r nullNameU).name = none ∧
      (applyUpdate r nullPriceU).price = none) ∧
    (∀ (st : Store) (id : Nat) (r : Product) (now : Nat),
      getProduct st id = some r → r.name.isSome = true →
      update_product st id nullNameU now =
        (st, Except.error (ApiError.serverError "Could not update product."))) ∧
    (∀ (st : Store) (id : Nat) (r : Product) (now : Nat),
      getProduct st id = some r → r.price.isSome = true →
      update_product st id nullPriceU now =
        (st, Except.error (ApiError.serverError "Could not update product."))) := by
  refine ⟨?_, ?_, ?_, ?_⟩
  · intro u h1 h2 h3 h4
    rcases h1 with h1 | h1 <;> rcases h2 with h2 | h2 <;>
      rcases h3 with h3 | h3 <;> rcases h4 with h4 | h4 <;>
      simp [validateUpdate, h1, h2, h3, h4]
  · intro r
    exact ⟨rfl, rfl⟩
  · intro st id r now hr hname
    obtain ⟨n, hn⟩ := Option.isSome_iff_exists.mp hname
    unfold update_product
    rw [if_pos (show validateUpdate nullNameU = true from rfl), hr]
    dsimp only
    have hm : applyUpdate r nullNameU ≠ r := by
      intro he
      have h2 : (none : Option String) = r.name := congrArg Product.name he
      rw [hn] at h2
      exact Option.noConfusion h2
    rw [if_neg hm]
    have hnn : rowNotNullOk (applyUpdate r nullNameU) = false := by
      simp [rowNotNullOk, applyUpdate, nullNameU]
    rw [if_neg (by rw [hnn]; exact Bool.false_ne_true)]
  · intro st id r now hr hprice
    obtain ⟨q, hq⟩ := Option.isSome_iff_exists.mp hprice
    unfold update_product
    rw [if_pos (show validateUpdate nullPriceU = true from rfl), hr]
    dsimp only
    have hm : applyUpdate r nullPriceU ≠ r := by
      intro he
      have h2 : (none : Option ℚ) = r.price := congrArg Product.price he
      rw [hq] at h2
      exact Option.noConfusion h2
    rw [if_neg hm]
    have hnn : rowNotNullOk (applyUpdate r nullPriceU) = false := by
      simp [rowNotNullOk, applyUpdate, nullPriceU]
    rw [if_neg (by rw [hnn]; exact Bool.false_ne_true)]

/-- Closed instance of C9: the explicit-null payloads pass validation, and
nulling `name` or `price` of `demoRow` yields the 500 error with the store
unchanged. -/
theorem claim_C9_witness :
    validateUpdate nullNameU = true ∧
    update_product demoStore 1 nullNameU 9 =
      (demoStore, Except.error (ApiError.serverError "Could not update product.")) ∧
    update_product demoStore 1 nullPriceU 9 =
      (demoStore, Except.error (ApiError.serverError "Could not update product.")) :=
  ⟨claim_C9.1 nullNameU (Or.inr rfl) (Or.inl rfl) (Or.inl rfl) (Or.inl rfl),
   claim_C9.2.2.1 demoStore 1 demoRow 9 rfl rfl,
   claim_C9.2.2.2 demoStore 1 demoRow 9 rfl rfl⟩

/-- C3 fails as stated on the code: the handler interpolates the search
term unescaped into `f"%{search}%"`, so `%` and `_` in the term act as SQL
LIKE wildcards.  For the store holding the row named "abc" and the term
"a_c" — a term the Query validation accepts — the code returns the row
(`_` matches `b`), while the claim's case-insensitive-substring filter
excludes it, so "returns exactly the records whose name or description
contains the term as a substring" is false at this input. -/
theorem claim_C3_counterexample :
    list_products abcStore 0 100 (some "a_c") = Except.ok [abcRow] ∧
    abcStore.products.filter (specContainsTerm "a_c") = [] ∧
    list_products abcStore 0 100 (some "a_c") ≠
      Except.ok (((abcStore.products.filter (specContainsTerm "a_c")).drop
        (0 : Int).toNat).take (100 : Int).toNat) := by
  have h1 : list_products abcStore 0 100 (some "a_c") = Except.ok [abcRow] := by
    simp [list_products, abcStore, abcRow, matchesSearch, ilikePattern,
      likeMatch, lexLike.eq_def, toksMatch]
    decide
  have h2 : abcStore.products.filter (specContainsTerm "a_c") = [] := by decide
  refine ⟨h1, h2, ?_⟩
  rw [h1, h2]
  simp

/-- C3 (amended): in a well-formed store and for accepted query
parameters, `list_products` with a present search term free of the SQL
LIKE metacharacters `%`, `_`, `\` returns exactly the rows whose name or
description contains the term as a case-insensitive substring (then
paginated) — including the empty term, for which the handler skips the
filter and the substring predicate holds of every row; terms containing
those metacharacters are instead interpreted as LIKE wildcards.  With no
search term it returns all rows subject to skip/limit. -/
theorem claim_C3 (st : Store) (skip limit : Int) (search : String)
    (hwf : st.wf) (hskip : 0 ≤ skip) (hlim1 : 1 ≤ limit) (hlim2 : limit ≤ 100)
    (hlen : search.length ≤ 255) (hns : noSpecial search.toList = true) :
    list_products st skip limit (some search) =
      Except.ok (((st.products.filter (specContainsTerm search)).drop
        skip.toNat).take limit.toNat) ∧
    list_products st skip limit none =
      Except.ok ((st.products.drop skip.toNat).take limit.toNat) := by
  constructor
  · rw [list_products_valid st skip limit (some search) hskip hlim1 hlim2
      (fun s hs => by cases hs; exact hlen)]
    dsimp only
    by_cases hse : search = ""
    · subst hse
      rw [if_pos rfl]
      have hall : ∀ r ∈ st.products, specContainsTerm "" r = true := by
        intro r hr
        have hok := (hwf r hr).2
        have hname : r.name.isSome = true := by
          simp only [rowNotNullOk, Bool.and_eq_true] at hok
          exact hok.1.1
        obtain ⟨n, hn⟩ := Option.isSome_iff_exists.mp hname
        simp [specContainsTerm, hn, containsCI_empty]
      rw [show st.products.filter (specContainsTerm "") = st.products from
        List.filter_eq_self.mpr hall]
    · rw [if_neg hse,
        List.filter_congr (fun r _ => matchesSearch_eq_spec search hns r)]
  · exact list_products_valid st skip limit none hskip hlim1 hlim2
      (fun s hs => by cases hs)

/-- Closed instance of the amended C3: searching `demoStore` for the
metacharacter-free term "LAPTOP" (and listing without a term) with skip 0,
limit 100. -/
theorem claim_C3_witness :
    list_products demoStore 0 100 (some "LAPTOP") =
      Except.ok (((demoStore.products.filter (specContainsTerm "LAPTOP")).drop
        (0 : Int).toNat).take (100 : Int).toNat) ∧
    list_products demoStore 0 100 none =
      Except.ok ((demoStore.products.drop (0 : Int).toNat).take (100 : Int).toNat) :=
  claim_C3 demoStore 0 100 "LAPTOP"
    (by intro r hr
        simp only [demoStore, List.mem_singleton] at hr
        subst hr
        exact ⟨by decide, rfl⟩)
    (by decide) (by decide) (by decide) (by decide) (by decide)

/-- C6: Pagination — `limit` outside [1,100] or `skip < 0` is rejected with
the 422 validation error before any query; for accepted parameters the
handler applies `skip` then `limit`; a store of 5 rows listed with skip 1,
limit 2 yields exactly 2 rows; and an empty result is a valid 200 response
with an empty list, not an error. -/
theorem claim_C6 :
    (∀ (st : Store) (skip limit : Int) (search : Option String),
      limit < 1 ∨ 100 < limit ∨ skip < 0 →
      list_products st skip limit search = Except.error ApiError.validation) ∧
    (∀ (st : Store) (skip limit : Int), 0 ≤ skip → 1 ≤ limit → limit ≤ 100 →
      list_products st skip limit none =
        Except.ok ((st.products.drop skip.toNat).take limit.toNat)) ∧
    (∀ st : Store, st.products.length = 5 →
      list_products st 1 2 none = Except.ok ((st.products.drop 1).take 2) ∧
      ((st.products.drop 1).take 2).length = 2) ∧
    (∀ (st : Store) (skip limit : Int), 0 ≤ skip → 1 ≤ limit → limit ≤ 100 →
      st.products = [] → list_products st skip limit none = Except.ok []) := by
  have hvalid : ∀ (st : Store) (skip limit : Int), 0 ≤ skip → 1 ≤ limit →
      limit ≤ 100 → list_products st skip limit none =
        Except.ok ((st.products.drop skip.toNat).take limit.toNat) :=
    fun st skip limit h1 h2 h3 =>
      list_products_valid st skip limit none h1 h2 h3 (fun s hs => by cases hs)
  refine ⟨?_, hvalid, ?_, ?_⟩
  · intro st skip limit search h
    unfold list_products
    rw [if_pos]
    simp only [Bool.or_eq_true, decide_eq_true_eq]
    rcases h with h | h | h
    · exact Or.inl (Or.inl (Or.inr h))
    · exact Or.inl (Or.inr h)
    · exact Or.inl (Or.inl (Or.inl h))
  · intro st h5
    refine ⟨hvalid st 1 2 (by omega) (by omega) (by omega), ?_⟩
    rw [List.length_take, List.length_drop, h5]
    decide
  · intro st skip limit h1 h2 h3 hnil
    rw [hvalid st skip limit h1 h2 h3, hnil]
    simp

/-- Closed instance of C6: limit 0 is rejected; skip 1/limit 2 over the
five-row store returns 2 rows; listing the empty store succeeds with an
empty list. -/
theorem claim_C6_witness :
    list_products fiveStore 0 0 none = Except.error ApiError.validation ∧
    (list_products fiveStore 1 2 none =
        Except.ok ((fiveStore.products.drop 1).take 2) ∧
      ((fiveStore.products.drop 1).take 2).length = 2) ∧
    list_products { products := [], nextId := 1 } 0 100 none = Except.ok [] :=
  ⟨claim_C6.1 fiveStore 0 0 none (Or.inl (by decide)),
   claim_C6.2.2.1 fiveStore rfl,
   claim_C6.2.2.2 { products := [], nextId := 1 } 0 100
     (by decide) (by decide) (by decide) rfl⟩

/-- If every remaining attempt hits a connectivity failure, the startup
loop exits with code 1. -/
lemma startupGo_allConn (env : Nat → Outcome) :
    ∀ (rem i slept : Nat), (∀ j, j < rem → env (i + j) = Outcome.connFailure) →
    startupGo env i slept rem = StartupResult.exited 1 := by
  intro rem
  induction rem with
  | zero => intro i slept h; rfl
  | succ n ih =>
    intro i slept h
    have h0 : env i = Outcome.connFailure := by simpa using h 0 (Nat.succ_pos n)
    unfold startupGo
    rw [h0]
    by_cases hn : n = 0
    · subst hn; rw [if_pos rfl]
    · rw [if_neg hn]
      apply ih
      intro j hj
      have hc := h (j + 1) (by omega)
      rwa [show i + (j + 1) = i + 1 + j from by omega] at hc

/-- A non-connectivity error on attempt `k`, after `k` connectivity
failures, exits with code 1 immediately. -/
lemma startupGo_other (env : Nat → Outcome) :
    ∀ (k rem i slept : Nat), k < rem →
    (∀ j, j < k → env (i + j) = Outcome.connFailure) →
    env (i + k) = Outcome.otherError →
    startupGo env i slept rem = StartupResult.exited 1 := by
  intro k
  induction k with
  | zero =>
    intro rem i slept hk hconn ho
    obtain ⟨rem', rfl⟩ : ∃ m, rem = m + 1 := ⟨rem - 1, by omega⟩
    unfold startupGo
    rw [show env i = Outcome.otherError from by simpa using ho]
  | succ k ih =>
    intro rem i slept hk hconn ho
    obtain ⟨rem', rfl⟩ : ∃ m, rem = m + 1 := ⟨rem - 1, by omega⟩
    have h0 : env i = Outcome.connFailure := by simpa using hconn 0 (by omega)
    unfold startupGo
    rw [h0]
    have hr0 : rem' ≠ 0 := by omega
    rw [if_neg hr0]
    apply ih rem' (i + 1) (slept + retry_delay_seconds) (by omega)
    · intro j hj
      have hc := hconn (j + 1) (by omega)
      rwa [show i + (j + 1) = i + 1 + j from by omega] at hc
    · rwa [show i + (k + 1) = i + 1 + k from by omega] at ho

/-- Success on attempt `k`, after `k` connectivity failures, leaves the
loop ready after `k + 1` attempts having slept `k` fixed delays. -/
lemma startupGo_success (env : Nat → Outcome) :
    ∀ (k rem i slept : Nat), k < rem →
    (∀ j, j < k → env (i + j) = Outcome.connFailure) →
    env (i + k) = Outcome.success →
    startupGo env i slept rem =
      StartupResult.ready (i + k + 1) (slept + k * retry_delay_seconds) := by
  intro k
  induction k with
  | zero =>
    intro rem i slept hk hconn hs
    obtain ⟨rem', rfl⟩ : ∃ m, rem = m + 1 := ⟨rem - 1, by omega⟩
    unfold startupGo
    rw [show env i = Outcome.success from by simpa using hs]
    simp
  | succ k ih =>
    intro rem i slept hk hconn hs
    obtain ⟨rem', rfl⟩ : ∃ m, rem = m + 1 := ⟨rem - 1, by omega⟩
    have h0 : env i = Outcome.connFailure := by simpa using hconn 0 (by omega)
    unfold startupGo
    rw [h0]
    have hr0 : rem' ≠ 0 := by omega
    rw [if_neg hr0]
    have hrec := ih rem' (i + 1) (slept + retry_delay_seconds) (by omega)
      (fun j hj => by
        have hc := hconn (j + 1) (by omega)
        rwa [show i + (j + 1) = i + 1 + j from by omega] at hc)
      (by rwa [show i + (k + 1) = i + 1 + k from by omega] at hs)
    rw [hrec,
      show i + 1 + k + 1 = i + (k + 1) + 1 from by omega,
      show slept + retry_delay_seconds + k * retry_delay_seconds
          = slept + (k + 1) * retry_delay_seconds from by ring]

/-- C8: Startup readiness — the startup phase attempts schema creation at
most `max_retries = 10` times: if every attempt fails with a connectivity
error the process exits with code 1 (never serving traffic); a
non-connectivity error at any attempt exits with code 1 immediately; and
success on attempt `k+1` means the service becomes ready having slept
exactly `k` fixed delays of `retry_delay_seconds = 5` seconds. -/
theorem claim_C8 :
    (∀ env : Nat → Outcome,
      (∀ i, i < max_retries → env i = Outcome.connFailure) →
      startup_event env = StartupResult.exited 1) ∧
    (∀ (env : Nat → Outcome) (k : Nat), k < max_retries →
      (∀ j, j < k → env j = Outcome.connFailure) →
      env k = Outcome.otherError →
      startup_event env = StartupResult.exited 1) ∧
    (∀ (env : Nat → Outcome) (k : Nat), k < max_retries →
      (∀ j, j < k → env j = Outcome.connFailure) →
      env k = Outcome.success →
      startup_event env = StartupResult.ready (k + 1) (k * retry_delay_seconds)) := by
  refine ⟨?_, ?_, ?_⟩
  · intro env h
    exact startupGo_allConn env max_retries 0 0 (fun j hj => by simpa using h j hj)
  · intro env k hk hconn ho
    exact startupGo_other env k max_retries 0 0 hk
      (fun j hj => by simpa using hconn j hj) (by simpa using ho)
  · intro env k hk hconn hs
    have h := startupGo_success env k max_retries 0 0 hk
      (fun j hj => by simpa using hconn j hj) (by simpa using hs)
    simpa using h

/-- Closed instance of C8: ten connectivity failures exit 1; an immediate
unexpected error exits 1; success on the fourth attempt is ready after 4
attempts and 3 delays. -/
theorem claim_C8_witness :
    startup_event (fun _ => Outcome.connFailure) = StartupResult.exited 1 ∧
    startup_event (fun i => if i = 0 then Outcome.otherError
                            else Outcome.connFailure) = StartupResult.exited 1 ∧
    startup_event (fun i => if i = 3 then Outcome.success
                            else Outcome.connFailure) =
      StartupResult.ready 4 (3 * retry_delay_seconds) :=
  ⟨claim_C8.1 _ (fun i _ => rfl),
   claim_C8.2.1 _ 0 (by decide) (fun j hj => absurd hj (Nat.not_lt_zero j)) rfl,
   claim_C8.2.2 _ 3 (by decide)
     (fun j hj => by simp only [if_neg (show ¬ j = 3 from by omega)]) rfl⟩

end ProductService
